import Mathlib

/-!
# dup-file-finder: duplicatefinder and hasher

A shallow embedding of `duplicatefinder.go` and `hasher.go`.

* Go strings are modelled by `String`; file contents by lists of bytes (`List Nat`).
* The operating system (`os.Stat`, `os.MkdirAll`, `os.Open` + `io.Copy`, the entries
  reported by `filepath.Walk`) and `%q` quoting are collaborators outside the
  repository; they are the fields of `OS`, over an arbitrary file-system state `σ`.
* `database.Database` is an interface; it is the structure `Database δ` over an
  arbitrary index state `δ`.
* A method call on a nil `os.FileInfo` is a run-time panic: `Outcome.nilPanic`.
-/

set_option autoImplicit false

namespace DupFinder

/-! ## Errors -/

/-- The system error numbers the model distinguishes. -/
inductive Errno where
  | ENOENT
  | EACCES
  | ENOTDIR
  | EROFS
  deriving DecidableEq, Repr

/-- Text of `syscall.Errno.Error()`. -/
def Errno.text : Errno → String
  | .ENOENT => "no such file or directory"
  | .EACCES => "permission denied"
  | .ENOTDIR => "not a directory"
  | .EROFS => "read-only file system"

/-- Go `*os.PathError`, the error type of `os.Stat`, `os.Open`, `os.MkdirAll`. -/
structure PathError where
  Op : String
  Path : String
  Err : Errno
  deriving DecidableEq, Repr

/-- A Go `error` value: a `*os.PathError` or an error made by `fmt.Errorf`. -/
inductive GoError where
  | path (e : PathError)
  | errorf (msg : String)
  deriving DecidableEq, Repr

/-- The method `Error()`. -/
def GoError.Error : GoError → String
  | .path e => e.Op ++ " " ++ e.Path ++ ": " ++ e.Err.text
  | .errorf msg => msg

/-- The verb `%v` applied to an `error` (nil prints as `<nil>`). -/
def fmtV : Option GoError → String
  | none => "<nil>"
  | some e => e.Error

/-- Go `os.IsNotExist`: true exactly for an error whose system error is `ENOENT`. -/
def IsNotExist : Option GoError → Bool
  | some (.path e) => decide (e.Err = Errno.ENOENT)
  | _ => false

/-- Result of a Go call that may panic on a nil `os.FileInfo`. -/
inductive Outcome (α : Type) where
  | ret (a : α)
  | nilPanic
  deriving DecidableEq, Repr

/-! ## Collaborators -/

/-- The part of `os.FileInfo` the code reads: `IsDir()` and `Size()` (an `int64`). -/
structure FileInfo where
  IsDir : Bool
  Size : Int
  deriving DecidableEq, Repr

/-- What `os.Open` followed by `io.Copy` into the hash gives for a path. -/
inductive FileRead where
  | openFails (e : PathError)
  | copyFails (e : PathError)
  | data (bytes : List Nat)
  deriving DecidableEq, Repr

/-- One call of the `filepath.Walk` callback: `(path, info, err)`. -/
structure WalkEntry where
  path : String
  info : Option FileInfo
  err : Option GoError
  deriving DecidableEq, Repr

/-- The operating system and formatting collaborators, over a file-system state `σ`.
`Walk s root` lists the callback invocations `filepath.Walk` makes, in order, as long
as the callback keeps returning nil. -/
structure OS (σ : Type) where
  Stat : σ → String → Option FileInfo × Option GoError
  MkdirAll : σ → String → Nat → σ × Option PathError
  ReadFile : σ → String → FileRead
  Walk : σ → String → List WalkEntry
  quote : String → String

/-- The interface `database.Database`, as far as this package uses it. -/
structure Database (δ : Type) where
  Add : δ → String → String → δ

/-! ## Go conversions -/

/-- Go `string(v)` for an integer `v` (runtime `intstring`): the UTF-8 string of the
code point `v`; a value that is no valid code point gives the replacement
character U+FFFD. -/
def intstring (v : Int) : String :=
  if 0 ≤ v ∧ v.toNat.isValidChar then String.singleton (Char.ofNat v.toNat)
  else String.singleton (Char.ofNat 0xFFFD)

/-- Go `strconv.Itoa` / `%d` for a natural number: the decimal string. -/
def decimal (n : Nat) : String := toString n

/-! ## hasher.go -/

/-- Rotate a 32-bit word left. -/
def rotl32 (x n : Nat) : Nat := ((x <<< n) ||| (x >>> (32 - n))) % 4294967296

/-- Big-endian bytes of the low `8 * k` bits of `x`. -/
def beBytes : Nat → Nat → List Nat
  | 0, _ => []
  | k + 1, x => (x >>> (8 * k)) % 256 :: beBytes k x

/-- SHA-1 padding: `0x80`, zeros up to 56 mod 64, then the bit length in 8 bytes. -/
def sha1Pad (msg : List Nat) : List Nat :=
  msg ++ 128 :: List.replicate ((119 - msg.length % 64) % 64) 0
    ++ beBytes 8 (8 * msg.length)

/-- Read big-endian 32-bit words. -/
def beWords : List Nat → List Nat
  | a :: b :: c :: d :: rest => (((a * 256 + b) * 256 + c) * 256 + d) :: beWords rest
  | _ => []

/-- Extend the 16 words of a block to the 80-word message schedule; `w` holds the
schedule so far in reverse (latest word first). -/
def sha1Schedule : Nat → List Nat → List Nat
  | 0, w => w
  | k + 1, w =>
    sha1Schedule k
      (rotl32 (w.getD 2 0 ^^^ w.getD 7 0 ^^^ w.getD 13 0 ^^^ w.getD 15 0) 1 :: w)

/-- State of the compression function: the five working variables. -/
structure Sha1State where
  a : Nat
  b : Nat
  c : Nat
  d : Nat
  e : Nat
  deriving DecidableEq, Repr

/-- One of the 80 rounds, at index `i` with schedule word `w`. -/
def sha1Round (st : Sha1State) (i w : Nat) : Sha1State :=
  let f :=
    if i < 20 then (st.b &&& st.c) ||| ((st.b ^^^ 4294967295) &&& st.d)
    else if i < 40 then st.b ^^^ st.c ^^^ st.d
    else if i < 60 then ((st.b ||| st.c) &&& st.d) ||| (st.b &&& st.c)
    else st.b ^^^ st.c ^^^ st.d
  let k :=
    if i < 20 then 0x5A827999
    else if i < 40 then 0x6ED9EBA1
    else if i < 60 then 0x8F1BBCDC
    else 0xCA62C1D6
  { a := (rotl32 st.a 5 + f + st.e + w + k) % 4294967296
    b := st.a
    c := rotl32 st.b 30
    d := st.c
    e := st.d }

/-- Run the rounds over the schedule words, counting the round index from `i`. -/
def sha1Rounds : List Nat → Nat → Sha1State → Sha1State
  | [], _, st => st
  | w :: ws, i, st => sha1Rounds ws (i + 1) (sha1Round st i w)

/-- Compress one 64-byte block into the chaining value `h`. -/
def sha1Block (h : Sha1State) (block : List Nat) : Sha1State :=
  let w := (sha1Schedule 64 (beWords block).reverse).reverse
  let st := sha1Rounds w 0 h
  { a := (h.a + st.a) % 4294967296
    b := (h.b + st.b) % 4294967296
    c := (h.c + st.c) % 4294967296
    d := (h.d + st.d) % 4294967296
    e := (h.e + st.e) % 4294967296 }

/-- Compress `n` consecutive 64-byte blocks. -/
def sha1Blocks : Nat → List Nat → Sha1State → Sha1State
  | 0, _, h => h
  | n + 1, bytes, h => sha1Blocks n (bytes.drop 64) (sha1Block h (bytes.take 64))

/-- Go `sha1.New()`, `Write` of all the bytes, `Sum(nil)`: the 20-byte digest. -/
def sha1Sum (msg : List Nat) : List Nat :=
  let p := sha1Pad (msg.map (· % 256))
  let h := sha1Blocks (p.length / 64) p
    { a := 0x67452301, b := 0xEFCDAB89, c := 0x98BADCFE, d := 0x10325476, e := 0xC3D2E1F0 }
  beBytes 4 h.a ++ beBytes 4 h.b ++ beBytes 4 h.c ++ beBytes 4 h.d ++ beBytes 4 h.e

/-- The table `hextable` of `encoding/hex`. -/
def hextable : List Char :=
  ['0', '1', '2', '3', '4', '5', '6', '7', '8', '9', 'a', 'b', 'c', 'd', 'e', 'f']

/-- Go `hex.EncodeToString`. -/
def EncodeToString (bytes : List Nat) : String :=
  String.mk (bytes.flatMap fun v => [hextable.getD (v / 16 % 16) '0', hextable.getD (v % 16) '0'])

/-- `HashFile` of hasher.go: the pair `(sha1Str, err)`. -/
def HashFile {σ : Type} (os : OS σ) (s : σ) (filePath : String) : String × Option GoError :=
  match os.ReadFile s filePath with
  | .openFails e => ("", some (.path e))
  | .copyFails e => ("", some (.path e))
  | .data bytes => (EncodeToString (sha1Sum bytes), none)

/-! ## duplicatefinder.go -/

/-- The type `DuplicateSearchStyle`, a Go `int`. -/
abbrev DuplicateSearchStyle := Int

/-- Constant `BySize` (`iota` = 0). -/
def BySize : DuplicateSearchStyle := 0

/-- Constant `ByContents` (`iota` = 1). -/
def ByContents : DuplicateSearchStyle := 1

/-- The struct `DuplicateFinder`. -/
structure DuplicateFinder (δ : Type) where
  appDir : String
  folderToScan : String
  appDb : δ
  SearchStyle : DuplicateSearchStyle

/-- `createAppDir`: the new file-system state and the returned error. -/
def createAppDir {σ : Type} (os : OS σ) (s : σ) (appDataPath : String) :
    σ × Outcome (Option GoError) :=
  match os.Stat s appDataPath with
  | (stats, err) =>
    if !IsNotExist err then
      match stats with
      | none => (s, .nilPanic)
      | some st =>
        if !st.IsDir then
          (s, .ret (some (.errorf
            ("file exists at " ++ os.quote appDataPath ++ ", expected a directory"))))
        else (s, .ret none)
    else
      match os.MkdirAll s appDataPath 0o666 with
      | (s1, e) => (s1, .ret (e.map GoError.path))

/-- `New`: the new file-system state and the pair `(dupFinder, err)`. -/
def New {σ δ : Type} (os : OS σ) (s : σ) (preferredAppDir : String) (db : δ) :
    σ × Outcome (Option (DuplicateFinder δ) × Option GoError) :=
  match createAppDir os s preferredAppDir with
  | (s1, .nilPanic) => (s1, .nilPanic)
  | (s1, .ret (some err)) => (s1, .ret (none, some err))
  | (s1, .ret none) =>
    (s1, .ret (some { appDir := preferredAppDir, folderToScan := "", appDb := db,
                      SearchStyle := BySize }, none))

/-- `isValidSearchDir`: the pair `(bool, error)`. -/
def isValidSearchDir {σ : Type} (os : OS σ) (s : σ) (dirToSearch : String) :
    Outcome (Bool × Option GoError) :=
  match os.Stat s dirToSearch with
  | (stats, err) =>
    let second : Outcome (Bool × Option GoError) :=
      if IsNotExist err then
        .ret (false, some (.errorf
          ("folder to search " ++ os.quote dirToSearch ++ " does not exist")))
      else .ret (true, none)
    if !IsNotExist err then
      match stats with
      | none => .nilPanic
      | some st =>
        if !st.IsDir then
          .ret (false, some (.errorf
            ("file exists at " ++ os.quote dirToSearch ++ ", expected a directory")))
        else second
    else second

/-- The function literal handed to `filepath.Walk` in `FindDuplicateFiles`, run on one
entry: the index afterwards and the error returned to the walker. -/
def walkFn {σ δ : Type} (os : OS σ) (dbI : Database δ) (s : σ)
    (style : DuplicateSearchStyle) (db : δ) (en : WalkEntry) : δ × Outcome (Option GoError) :=
  match en.info with
  | none => (db, .nilPanic)
  | some info =>
    if !info.IsDir then
      let db1 := if style = BySize then dbI.Add db (intstring info.Size) en.path else db
      if style = ByContents then
        match HashFile os s en.path with
        | (_, some err) => (db1, .ret (some err))
        | (hashedString, none) => (dbI.Add db1 hashedString en.path, .ret none)
      else (db1, .ret none)
    else (db, .ret none)

/-- The loop of `filepath.Walk` over the entries it reports: the callback runs on each
entry in turn; the first non-nil error it returns stops the walk and is the result of
`Walk`; a panic in the callback unwinds through `Walk`. (The callback of this package
returns nil or the error of `HashFile`, a `*os.PathError`, never `filepath.SkipDir`.) -/
def walkLoop {δ : Type} (fn : δ → WalkEntry → δ × Outcome (Option GoError)) :
    List WalkEntry → δ → δ × Outcome (Option GoError)
  | [], db => (db, .ret none)
  | en :: rest, db =>
    match fn db en with
    | (db1, .ret none) => walkLoop fn rest db1
    | (db1, r) => (db1, r)

/-- `FindDuplicateFiles`: the index afterwards and the returned error. The value
returned by `filepath.Walk` is discarded by the source. -/
def FindDuplicateFiles {σ δ : Type} (os : OS σ) (dbI : Database δ) (s : σ)
    (df : DuplicateFinder δ) (dirToSearch : String) : δ × Outcome (Option GoError) :=
  match isValidSearchDir os s dirToSearch with
  | .nilPanic => (df.appDb, .nilPanic)
  | .ret (isDir, err) =>
    if !isDir || err.isSome then
      (df.appDb, .ret (some (.errorf ("Not a valid search directory : " ++ fmtV err))))
    else
      match walkLoop (walkFn os dbI s df.SearchStyle) (os.Walk s dirToSearch) df.appDb with
      | (db1, .nilPanic) => (db1, .nilPanic)
      | (db1, .ret _) => (db1, .ret none)

/-! ## Reference notions for the statements -/

/-- A database that records the `Add` calls it receives, oldest first. -/
def traceDb : Database (List (String × String)) where
  Add log key path := log ++ [(key, path)]

/-- The comparison key in the words of the specification: under `BySize` the decimal
string of the byte length of the file, under `ByContents` the hex digest of its
content. -/
def specKey {σ : Type} (os : OS σ) (s : σ) (style : DuplicateSearchStyle)
    (path : String) (info : FileInfo) : String :=
  if style = BySize then decimal info.Size.toNat
  else
    match os.ReadFile s path with
    | .data bytes => EncodeToString (sha1Sum bytes)
    | _ => ""

/-- The `Add` calls the specification asks of a scan, in walk order: one
`(key, path)` for every entry reported as a non-directory, none for a directory. -/
def specAddCalls {σ : Type} (os : OS σ) (s : σ) (style : DuplicateSearchStyle) :
    List WalkEntry → List (String × String)
  | [] => []
  | en :: rest =>
    match en.info with
    | some info =>
      if info.IsDir then specAddCalls os s style rest
      else (specKey os s style en.path info, en.path) :: specAddCalls os s style rest
    | none => specAddCalls os s style rest

/-! ## A concrete file system for the examples -/

/-- A file system given by tables. -/
structure Fixture where
  nodes : List (String × FileInfo)
  denied : List String
  contents : List (String × List Nat)
  entries : List WalkEntry
  readOnly : Bool

/-- Quoting of a plain printable ASCII path without quote or backslash characters. -/
def plainQuote (p : String) : String := "\"" ++ p ++ "\""

/-- Look a path up in a table. -/
def findNode {α : Type} : List (String × α) → String → Option α
  | [], _ => none
  | (k, v) :: rest, p => if k = p then some v else findNode rest p

/-- The operating system over a `Fixture`. -/
def fixtureOS : OS Fixture where
  Stat fx p :=
    if p ∈ fx.denied then (none, some (.path ⟨"stat", p, .EACCES⟩))
    else match findNode fx.nodes p with
      | some fi => (some fi, none)
      | none => (none, some (.path ⟨"stat", p, .ENOENT⟩))
  MkdirAll fx p _ :=
    if fx.readOnly then (fx, some ⟨"mkdir", p, .EROFS⟩)
    else if p ∈ fx.denied then (fx, some ⟨"mkdir", p, .EACCES⟩)
    else ({ fx with nodes := (p, ⟨true, 4096⟩) :: fx.nodes }, none)
  ReadFile fx p :=
    match findNode fx.contents p with
    | some bytes => .data bytes
    | none => .openFails ⟨"open", p, .EACCES⟩
  Walk fx _ := fx.entries
  quote := plainQuote

/-- A finder over the recording database, with an empty log. -/
def traceFinder (style : DuplicateSearchStyle) : DuplicateFinder (List (String × String)) :=
  { appDir := "/app", folderToScan := "", appDb := [], SearchStyle := style }

/-- Directory `/data` holding the files `a` (4 bytes) and `b` (4 bytes). -/
def smallTree : Fixture :=
  { nodes := [("/data", ⟨true, 4096⟩), ("/data/a", ⟨false, 4⟩), ("/file", ⟨false, 0⟩)]
    denied := ["/secret"]
    contents := [("/data/a", [48, 48, 48, 48]), ("/data/b", [48, 48, 48, 49])]
    entries := [⟨"/data", some ⟨true, 4096⟩, none⟩, ⟨"/data/a", some ⟨false, 4⟩, none⟩,
      ⟨"/data/b", some ⟨false, 4⟩, none⟩]
    readOnly := false }

/-- Directory `/data` holding an unreadable file `a` and a readable file `b`. -/
def unreadableTree : Fixture :=
  { nodes := [("/data", ⟨true, 4096⟩)]
    denied := []
    contents := [("/data/b", [48, 48, 48, 49])]
    entries := [⟨"/data", some ⟨true, 4096⟩, none⟩, ⟨"/data/a", some ⟨false, 4⟩, none⟩,
      ⟨"/data/b", some ⟨false, 4⟩, none⟩]
    readOnly := false }

/-- Directory `/data` holding files of 2000000 and 3000000 bytes. -/
def bigTree : Fixture :=
  { nodes := [("/data", ⟨true, 4096⟩)]
    denied := []
    contents := []
    entries := [⟨"/data", some ⟨true, 4096⟩, none⟩, ⟨"/data/a", some ⟨false, 2000000⟩, none⟩,
      ⟨"/data/b", some ⟨false, 3000000⟩, none⟩]
    readOnly := false }

/-- Directory `/data` where the walker fails to lstat the entry `gone`. -/
def vanishedTree : Fixture :=
  { nodes := [("/data", ⟨true, 4096⟩)]
    denied := []
    contents := []
    entries := [⟨"/data", some ⟨true, 4096⟩, none⟩,
      ⟨"/data/gone", none, some (.path ⟨"lstat", "/data/gone", .ENOENT⟩)⟩]
    readOnly := false }

/-- A file system holding the file `/tmp/testfile` with the four bytes of "test". -/
def testFileTree : Fixture :=
  { nodes := [("/tmp", ⟨true, 4096⟩), ("/tmp/testfile", ⟨false, 4⟩)]
    denied := []
    contents := [("/tmp/testfile", [116, 101, 115, 116])]
    entries := []
    readOnly := false }

/-- Directory `/data` holding the readable files `a` and `b`; between the two the
walker fails to lstat the entry `gone`. -/
def goneThenFile : Fixture :=
  { nodes := [("/data", ⟨true, 4096⟩)]
    denied := []
    contents := [("/data/a", [48, 48, 48, 48]), ("/data/b", [48, 48, 48, 49])]
    entries := [⟨"/data", some ⟨true, 4096⟩, none⟩, ⟨"/data/a", some ⟨false, 4⟩, none⟩,
      ⟨"/data/gone", none, some (.path ⟨"lstat", "/data/gone", .ENOENT⟩)⟩,
      ⟨"/data/b", some ⟨false, 4⟩, none⟩]
    readOnly := false }

/-- A read-only file system holding only the directory `/`. -/
def readOnlyRoot : Fixture :=
  { nodes := [("/", ⟨true, 4096⟩)]
    denied := []
    contents := []
    entries := []
    readOnly := true }

/-! ## Lemmas on the precondition check -/

theorem append_literal (a b c x : String) (h : a ++ b = c) : a ++ (b ++ x) = c ++ x := by
  rw [← String.append_assoc, h]

theorem isValidSearchDir_notExist {σ : Type} (os : OS σ) (s : σ) (p : String)
    (h : IsNotExist (os.Stat s p).2 = true) :
    isValidSearchDir os s p =
      .ret (false, some (.errorf ("folder to search " ++ os.quote p ++ " does not exist"))) := by
  unfold isValidSearchDir
  rcases hst : os.Stat s p with ⟨stats, err⟩
  rw [hst] at h
  simp only at h
  simp [h]

theorem isValidSearchDir_file {σ : Type} (os : OS σ) (s : σ) (p : String) (fi : FileInfo)
    (hst : os.Stat s p = (some fi, none)) (hfile : fi.IsDir = false) :
    isValidSearchDir os s p =
      .ret (false, some (.errorf
        ("file exists at " ++ os.quote p ++ ", expected a directory"))) := by
  unfold isValidSearchDir
  rw [hst]
  simp [IsNotExist, hfile]

theorem isValidSearchDir_dir {σ : Type} (os : OS σ) (s : σ) (p : String) (fi : FileInfo)
    (hst : os.Stat s p = (some fi, none)) (hdir : fi.IsDir = true) :
    isValidSearchDir os s p = .ret (true, none) := by
  unfold isValidSearchDir
  rw [hst]
  simp [IsNotExist, hdir]

theorem isValidSearchDir_noInfo {σ : Type} (os : OS σ) (s : σ) (p : String)
    (hinfo : (os.Stat s p).1 = none) (herr : IsNotExist (os.Stat s p).2 = false) :
    isValidSearchDir os s p = .nilPanic := by
  unfold isValidSearchDir
  rcases hst : os.Stat s p with ⟨stats, err⟩
  rw [hst] at hinfo herr
  simp only at hinfo herr
  subst hinfo
  simp [herr]

/-! ## FindDuplicateFiles: rejected roots -/

/-- C4: for a path that does not exist (stat reports a not-exist error),
`FindDuplicateFiles` returns the error with message
"Not a valid search directory : folder to search <p quoted> does not exist",
and the index is left as it was: no `Add` call is made, whatever the database. -/
theorem FindDuplicateFiles_nonexistent {σ δ : Type} (os : OS σ) (dbI : Database δ) (s : σ)
    (df : DuplicateFinder δ) (p : String) (h : IsNotExist (os.Stat s p).2 = true) :
    FindDuplicateFiles os dbI s df p =
      (df.appDb, .ret (some (.errorf
        ("Not a valid search directory : folder to search " ++ os.quote p
          ++ " does not exist")))) := by
  unfold FindDuplicateFiles
  rw [isValidSearchDir_notExist os s p h]
  simp only [Bool.not_false, Bool.true_or, if_true, fmtV, GoError.Error, String.append_assoc]
  rw [append_literal _ _ "Not a valid search directory : folder to search " _ (by decide)]

/-- The rejection of a missing root, on the test path `/idontexist`. -/
theorem FindDuplicateFiles_nonexistent_witness :
    IsNotExist (fixtureOS.Stat smallTree "/idontexist").2 = true ∧
    FindDuplicateFiles fixtureOS traceDb smallTree (traceFinder ByContents) "/idontexist" =
      ((traceFinder ByContents).appDb, .ret (some (.errorf
        ("Not a valid search directory : folder to search " ++ fixtureOS.quote "/idontexist"
          ++ " does not exist")))) :=
  ⟨by decide,
    FindDuplicateFiles_nonexistent fixtureOS traceDb smallTree (traceFinder ByContents)
      "/idontexist" (by decide)⟩

/-- C5: for a path that exists and is not a directory (stat succeeds, `IsDir` is
false), `FindDuplicateFiles` returns the error with message
"Not a valid search directory : file exists at <p quoted>, expected a directory",
and the index is left as it was: no `Add` call is made, whatever the database. -/
theorem FindDuplicateFiles_file_as_dir {σ δ : Type} (os : OS σ) (dbI : Database δ) (s : σ)
    (df : DuplicateFinder δ) (p : String) (fi : FileInfo)
    (hst : os.Stat s p = (some fi, none)) (hfile : fi.IsDir = false) :
    FindDuplicateFiles os dbI s df p =
      (df.appDb, .ret (some (.errorf
        ("Not a valid search directory : file exists at " ++ os.quote p
          ++ ", expected a directory")))) := by
  unfold FindDuplicateFiles
  rw [isValidSearchDir_file os s p fi hst hfile]
  simp only [Bool.not_false, Bool.true_or, if_true, fmtV, GoError.Error, String.append_assoc]
  rw [append_literal _ _ "Not a valid search directory : file exists at " _ (by decide)]

/-- The rejection of a regular file as root, on the empty file `/file`. -/
theorem FindDuplicateFiles_file_as_dir_witness :
    fixtureOS.Stat smallTree "/file" = (some ⟨false, 0⟩, none) ∧
    FindDuplicateFiles fixtureOS traceDb smallTree (traceFinder BySize) "/file" =
      ((traceFinder BySize).appDb, .ret (some (.errorf
        ("Not a valid search directory : file exists at " ++ fixtureOS.quote "/file"
          ++ ", expected a directory")))) :=
  ⟨by decide,
    FindDuplicateFiles_file_as_dir fixtureOS traceDb smallTree (traceFinder BySize)
      "/file" ⟨false, 0⟩ (by decide) rfl⟩

/-! ## The key under BySize -/

/-- C1: scanning a directory that holds two 4-byte files under `BySize`, the key passed
to `Add` is the one-character string of code point 4 (`string(info.Size())`), which is
not the decimal string "4" of the size. -/
theorem bySize_key_is_code_point :
    FindDuplicateFiles fixtureOS traceDb smallTree (traceFinder BySize) "/data" =
      ([("\x04", "/data/a"), ("\x04", "/data/b")], .ret none) ∧
    decimal 4 = "4" ∧ intstring 4 ≠ decimal 4 := by
  decide

/-- C3: scanning a directory that holds a file of 2000000 bytes and a file of 3000000
bytes under `BySize`, both paths are added under the same key, the replacement
character U+FFFD, although the sizes differ. -/
theorem bySize_different_sizes_share_key :
    FindDuplicateFiles fixtureOS traceDb bigTree (traceFinder BySize) "/data" =
      ([(intstring 2000000, "/data/a"), (intstring 3000000, "/data/b")], .ret none) ∧
    intstring 2000000 = intstring 3000000 ∧ (2000000 : Int) ≠ 3000000 := by
  decide

/-! ## Failures during the walk -/

/-- C2: scanning under `ByContents` a valid directory whose first file cannot be opened
(`HashFile` returns an error), no later file is added, and `FindDuplicateFiles` returns
nil, not the hashing error: the value returned by `filepath.Walk` is dropped. -/
theorem byContents_hash_error_dropped :
    isValidSearchDir fixtureOS unreadableTree "/data" = .ret (true, none) ∧
    HashFile fixtureOS unreadableTree "/data/a" =
      ("", some (.path ⟨"open", "/data/a", .EACCES⟩)) ∧
    FindDuplicateFiles fixtureOS traceDb unreadableTree (traceFinder ByContents) "/data" =
      ([], .ret none) := by
  decide

/-- C10: `FindDuplicateFiles` panics on a nil `os.FileInfo` both when the stat of the
root fails with permission denied (an error other than not-exist, no file info) and
when the walker reports an entry with an error and no file info. -/
theorem FindDuplicateFiles_nil_info_panics :
    fixtureOS.Stat smallTree "/secret" = (none, some (.path ⟨"stat", "/secret", .EACCES⟩)) ∧
    (FindDuplicateFiles fixtureOS traceDb smallTree (traceFinder BySize) "/secret").2 =
      .nilPanic ∧
    isValidSearchDir fixtureOS vanishedTree "/data" = .ret (true, none) ∧
    (FindDuplicateFiles fixtureOS traceDb vanishedTree (traceFinder BySize) "/data").2 =
      .nilPanic := by
  decide

/-! ## HashFile -/

theorem beBytes_length (k x : Nat) : (beBytes k x).length = k := by
  induction k with
  | zero => rfl
  | succ k ih => simp [beBytes, ih]

theorem sha1Sum_length (msg : List Nat) : (sha1Sum msg).length = 20 := by
  simp [sha1Sum, beBytes_length]

theorem hextable_getD_mem : ∀ i, i < 16 → hextable.getD i '0' ∈ hextable := by
  decide

theorem EncodeToString_length (bytes : List Nat) :
    (EncodeToString bytes).length = 2 * bytes.length := by
  unfold EncodeToString
  rw [String.length_mk]
  induction bytes with
  | nil => rfl
  | cons b rest ih => simp only [List.flatMap_cons, List.length_append, ih, List.length_cons,
      List.length_nil]; omega

theorem EncodeToString_hex (bytes : List Nat) :
    ∀ c ∈ (EncodeToString bytes).data, c ∈ hextable := by
  intro c hc
  unfold EncodeToString at hc
  simp only [List.mem_flatMap, List.mem_cons, List.mem_singleton, List.not_mem_nil,
    or_false] at hc
  obtain ⟨v, _, hv⟩ := hc
  rcases hv with h | h
  · rw [h]; exact hextable_getD_mem _ (Nat.mod_lt _ (by decide))
  · rw [h]; exact hextable_getD_mem _ (Nat.mod_lt _ (by decide))

/-- C6: for a file that can be opened and fully read, with bytes `bytes`, `HashFile`
returns with a nil error the hex encoding of the SHA-1 digest of `bytes`; the string
has 40 characters, all of them in `0123456789abcdef`; any other readable file with
the same bytes gets the same result; and for the bytes of "test" the result is
"a94a8fe5ccb19ba61c4c0873d391e987982fbbd3". -/
theorem HashFile_sha1_hex {σ : Type} (os : OS σ) (s : σ) (p : String) (bytes : List Nat)
    (h : os.ReadFile s p = .data bytes) :
    HashFile os s p = (EncodeToString (sha1Sum bytes), none) ∧
    (HashFile os s p).1.length = 40 ∧
    (∀ c ∈ (HashFile os s p).1.data, c ∈ hextable) ∧
    (∀ (τ : Type) (os2 : OS τ) (s2 : τ) (p2 : String),
      os2.ReadFile s2 p2 = .data bytes → HashFile os2 s2 p2 = HashFile os s p) ∧
    (bytes = [116, 101, 115, 116] →
      HashFile os s p = ("a94a8fe5ccb19ba61c4c0873d391e987982fbbd3", none)) := by
  have h1 : HashFile os s p = (EncodeToString (sha1Sum bytes), none) := by
    unfold HashFile; rw [h]
  refine ⟨h1, ?_, ?_, ?_, ?_⟩
  · rw [h1]; simp only; rw [EncodeToString_length, sha1Sum_length]
  · rw [h1]; exact EncodeToString_hex _
  · intro τ os2 s2 p2 h2
    rw [h1]; unfold HashFile; rw [h2]
  · intro hb
    rw [h1, hb]
    have hv : EncodeToString (sha1Sum [116, 101, 115, 116]) =
        "a94a8fe5ccb19ba61c4c0873d391e987982fbbd3" := by decide!
    rw [hv]

/-- The digest of a file holding exactly the bytes of "test". -/
theorem HashFile_sha1_hex_witness :
    fixtureOS.ReadFile testFileTree "/tmp/testfile" = .data [116, 101, 115, 116] ∧
    "test".data.map Char.toNat = [116, 101, 115, 116] ∧
    HashFile fixtureOS testFileTree "/tmp/testfile" =
      ("a94a8fe5ccb19ba61c4c0873d391e987982fbbd3", none) :=
  ⟨by decide, by decide,
    (HashFile_sha1_hex fixtureOS testFileTree "/tmp/testfile" [116, 101, 115, 116]
      (by decide)).2.2.2.2 rfl⟩

/-! ## createAppDir and New -/

theorem createAppDir_file {σ : Type} (os : OS σ) (s : σ) (p : String) (fi : FileInfo)
    (herr : IsNotExist (os.Stat s p).2 = false) (hinfo : (os.Stat s p).1 = some fi)
    (hfile : fi.IsDir = false) :
    createAppDir os s p = (s, .ret (some (.errorf
      ("file exists at " ++ os.quote p ++ ", expected a directory")))) := by
  unfold createAppDir
  rcases hst : os.Stat s p with ⟨stats, err⟩
  rw [hst] at herr hinfo
  simp only at herr hinfo
  subst hinfo
  simp [herr, hfile]

theorem createAppDir_dir {σ : Type} (os : OS σ) (s : σ) (p : String) (fi : FileInfo)
    (herr : IsNotExist (os.Stat s p).2 = false) (hinfo : (os.Stat s p).1 = some fi)
    (hdir : fi.IsDir = true) :
    createAppDir os s p = (s, .ret none) := by
  unfold createAppDir
  rcases hst : os.Stat s p with ⟨stats, err⟩
  rw [hst] at herr hinfo
  simp only at herr hinfo
  subst hinfo
  simp [herr, hdir]

theorem createAppDir_noInfo {σ : Type} (os : OS σ) (s : σ) (p : String)
    (herr : IsNotExist (os.Stat s p).2 = false) (hinfo : (os.Stat s p).1 = none) :
    createAppDir os s p = (s, .nilPanic) := by
  unfold createAppDir
  rcases hst : os.Stat s p with ⟨stats, err⟩
  rw [hst] at herr hinfo
  simp only at herr hinfo
  subst hinfo
  simp [herr]

theorem createAppDir_notExist {σ : Type} (os : OS σ) (s : σ) (p : String)
    (herr : IsNotExist (os.Stat s p).2 = true) :
    createAppDir os s p =
      ((os.MkdirAll s p 0o666).1, .ret ((os.MkdirAll s p 0o666).2.map GoError.path)) := by
  unfold createAppDir
  rcases hst : os.Stat s p with ⟨stats, err⟩
  rw [hst] at herr
  simp only at herr
  simp [herr]

/-- C7, as stated, fails: on a read-only file system the path `/app` does not exist,
`createAppDir` returns the error of the recursive mkdir, and afterwards `/app` still
does not exist, so it is not a directory. -/
theorem createAppDir_mkdir_can_fail :
    IsNotExist (fixtureOS.Stat readOnlyRoot "/app").2 = true ∧
    (createAppDir fixtureOS readOnlyRoot "/app").2 =
      .ret (some (.path ⟨"mkdir", "/app", .EROFS⟩)) ∧
    fixtureOS.Stat (createAppDir fixtureOS readOnlyRoot "/app").1 "/app" =
      (none, some (.path ⟨"stat", "/app", .ENOENT⟩)) := by
  decide

/-- C7, amended: `createAppDir(p)` returns the error
"file exists at <p quoted>, expected a directory" if and only if the stat of `p` reports
no not-exist error and gives file info that is not a directory; when the stat gives a
directory it returns nil and leaves the file system as it was; when the stat reports
not-exist it runs the recursive mkdir on `p` with mode 0666 and returns its result, and
if that result is nil, `p` is a directory afterwards (`hmk` is the postcondition of a
successful `os.MkdirAll` at this call). -/
theorem createAppDir_cases {σ : Type} (os : OS σ) (s : σ) (p : String)
    (hmk : (os.MkdirAll s p 0o666).2 = none →
      ∃ fi, os.Stat (os.MkdirAll s p 0o666).1 p = (some fi, none) ∧ fi.IsDir = true) :
    ((createAppDir os s p).2 = .ret (some (.errorf
        ("file exists at " ++ os.quote p ++ ", expected a directory"))) ↔
      (IsNotExist (os.Stat s p).2 = false ∧
        ∃ fi, (os.Stat s p).1 = some fi ∧ fi.IsDir = false)) ∧
    (∀ fi, IsNotExist (os.Stat s p).2 = false → (os.Stat s p).1 = some fi →
      fi.IsDir = true → createAppDir os s p = (s, .ret none)) ∧
    (IsNotExist (os.Stat s p).2 = true →
      createAppDir os s p =
        ((os.MkdirAll s p 0o666).1, .ret ((os.MkdirAll s p 0o666).2.map GoError.path)) ∧
      ((createAppDir os s p).2 = .ret none →
        ∃ fi, os.Stat (createAppDir os s p).1 p = (some fi, none) ∧ fi.IsDir = true)) := by
  refine ⟨⟨?_, ?_⟩, ?_, ?_⟩
  · intro hret
    cases herr : IsNotExist (os.Stat s p).2 with
    | true =>
      rw [createAppDir_notExist os s p herr] at hret
      cases hm : (os.MkdirAll s p 0o666).2 with
      | none => rw [hm] at hret; simp at hret
      | some e => rw [hm] at hret; simp at hret
    | false =>
      refine ⟨rfl, ?_⟩
      cases hinfo : (os.Stat s p).1 with
      | none => rw [createAppDir_noInfo os s p herr hinfo] at hret; simp at hret
      | some fi =>
        refine ⟨fi, rfl, ?_⟩
        cases hd : fi.IsDir with
        | false => rfl
        | true => rw [createAppDir_dir os s p fi herr hinfo hd] at hret; simp at hret
  · rintro ⟨herr, fi, hinfo, hfile⟩
    rw [createAppDir_file os s p fi herr hinfo hfile]
  · intro fi herr hinfo hdir
    exact createAppDir_dir os s p fi herr hinfo hdir
  · intro herr
    refine ⟨createAppDir_notExist os s p herr, ?_⟩
    rw [createAppDir_notExist os s p herr]
    intro hret
    apply hmk
    cases hm : (os.MkdirAll s p 0o666).2 with
    | none => rfl
    | some e => rw [hm] at hret; simp at hret

/-- On a writable file system the missing path `/app` is created as a directory. -/
theorem createAppDir_cases_witness :
    IsNotExist (fixtureOS.Stat smallTree "/app").2 = true ∧
    (fixtureOS.MkdirAll smallTree "/app" 0o666).2 = none ∧
    fixtureOS.Stat (fixtureOS.MkdirAll smallTree "/app" 0o666).1 "/app" =
      (some ⟨true, 4096⟩, none) ∧
    (createAppDir fixtureOS smallTree "/app" =
        ((fixtureOS.MkdirAll smallTree "/app" 0o666).1,
          .ret ((fixtureOS.MkdirAll smallTree "/app" 0o666).2.map GoError.path)) ∧
      ((createAppDir fixtureOS smallTree "/app").2 = .ret none →
        ∃ fi, fixtureOS.Stat (createAppDir fixtureOS smallTree "/app").1 "/app" =
          (some fi, none) ∧ fi.IsDir = true)) :=
  ⟨by decide, by decide, by decide,
    (createAppDir_cases fixtureOS smallTree "/app"
      (fun _ => ⟨⟨true, 4096⟩, by decide, rfl⟩)).2.2 (by decide)⟩

/-- C8: if the bootstrap `createAppDir(d)` returns nil, `New(d, db)` returns a nil error
and a finder with `SearchStyle = BySize`, `appDir = d`, `appDb = db` (and an empty
`folderToScan`); if `d` exists and is not a directory, `New` returns a nil finder and
the error "file exists at <d quoted>, expected a directory". -/
theorem New_result {σ δ : Type} (os : OS σ) (s : σ) (d : String) (db : δ) :
    ((createAppDir os s d).2 = .ret none →
      New os s d db = ((createAppDir os s d).1,
        .ret (some { appDir := d, folderToScan := "", appDb := db, SearchStyle := BySize },
          none))) ∧
    (∀ fi, IsNotExist (os.Stat s d).2 = false → (os.Stat s d).1 = some fi →
      fi.IsDir = false →
      New os s d db = (s, .ret (none, some (.errorf
        ("file exists at " ++ os.quote d ++ ", expected a directory"))))) := by
  constructor
  · intro h
    unfold New
    rcases hc : createAppDir os s d with ⟨s1, r⟩
    rw [hc] at h
    simp only at h
    subst h
    rfl
  · intro fi herr hinfo hfile
    unfold New
    rw [createAppDir_file os s d fi herr hinfo hfile]

/-- A finder is built for the missing path `/app`; the file `/file` is refused. -/
theorem New_result_witness :
    ((createAppDir fixtureOS smallTree "/app").2 = .ret none ∧
      (New fixtureOS smallTree "/app" (0 : Nat)).2 =
        .ret (some { appDir := "/app", folderToScan := "", appDb := 0,
                     SearchStyle := BySize }, none)) ∧
    ((fixtureOS.Stat smallTree "/file").1 = some ⟨false, 0⟩ ∧
      New fixtureOS smallTree "/file" (0 : Nat) = (smallTree, .ret (none, some (.errorf
        ("file exists at " ++ fixtureOS.quote "/file" ++ ", expected a directory"))))) :=
  ⟨⟨by decide,
      congrArg Prod.snd ((New_result fixtureOS smallTree "/app" (0 : Nat)).1 (by decide))⟩,
    ⟨by decide,
      (New_result fixtureOS smallTree "/file" (0 : Nat)).2 ⟨false, 0⟩ (by decide) (by decide)
        rfl⟩⟩

/-! ## The sequence of Add calls -/

/-- C9: on two scans of a valid directory in which no hash fails, the `Add` calls of
`FindDuplicateFiles` are not the ones the specification asks for. Under `BySize`, two
4-byte files are added under the code point 4, where the key of the strategy is the
decimal string "4". Under `ByContents`, when the walker reports an entry without file
info between the files `a` and `b`, the scan adds `a`, panics on that entry, and the
non-directory entry `b` gets no `Add` call. -/
theorem add_sequence_not_as_specified :
    isValidSearchDir fixtureOS smallTree "/data" = .ret (true, none) ∧
    FindDuplicateFiles fixtureOS traceDb smallTree (traceFinder BySize) "/data" =
      ([("\x04", "/data/a"), ("\x04", "/data/b")], .ret none) ∧
    specAddCalls fixtureOS smallTree BySize (fixtureOS.Walk smallTree "/data") =
      [("4", "/data/a"), ("4", "/data/b")] ∧
    isValidSearchDir fixtureOS goneThenFile "/data" = .ret (true, none) ∧
    (HashFile fixtureOS goneThenFile "/data/a").2 = none ∧
    (HashFile fixtureOS goneThenFile "/data/b").2 = none ∧
    FindDuplicateFiles fixtureOS traceDb goneThenFile (traceFinder ByContents) "/data" =
      ([("39dfa55283318d31afe5a3ff4a0e3253e2045e43", "/data/a")], .nilPanic) ∧
    specAddCalls fixtureOS goneThenFile ByContents (fixtureOS.Walk goneThenFile "/data") =
      [("39dfa55283318d31afe5a3ff4a0e3253e2045e43", "/data/a"),
       ("7a6779700f09e1eafe9ad40e390f3a15b94dfa4b", "/data/b")] := by
  decide!

end DupFinder
